import Mathlib

set_option maxHeartbeats 1000000

/-!
Verification of the two debugging utilities in this repository:
a distributed topology-dump trigger (debug/dump_topo.py) and an
XML-topology-to-image renderer (debug/xml_to_png.py).

The renderer's tree walk is embedded as a pure function from an XML element
tree to the sequence of drawing primitives (node / edge creations) it issues
to the graph library, in issue order.  The command-line handling is embedded
together with a model of Python's getopt for the option string "hi:o:".
The dump trigger's main function is embedded as a pure function from its
environment (rank, world size, CUDA availability, device count) to its
observable outcome (exit code, printed messages).
-/

namespace VeScaleDebug

/-- An XML element as produced by xml.etree.ElementTree: a tag, an ordered
attribute list (Python dicts preserve insertion order; keys are unique), and
a list of child elements.  The type is inherently tree shaped, mirroring the
guarantee that the input document is a tree. -/
inductive XmlElem : Type where
  | mk (tag : String) (attrib : List (String × String)) (children : List XmlElem)

def XmlElem.tag : XmlElem → String
  | .mk t _ _ => t

def XmlElem.attrib : XmlElem → List (String × String)
  | .mk _ a _ => a

def XmlElem.children : XmlElem → List XmlElem
  | .mk _ _ c => c

/-! ## Renderer: xml_to_png.py -/

/-- The colors dictionary of xml_to_png.py (type → fill color). -/
def colors : List (String × String) :=
  [("graphs", "#F8F9FA"), ("graph", "#E3F2FD"), ("channel", "#E0F2F1"),
   ("gpu", "#E8F5E9"), ("cpu", "#F3E5F5"), ("pci", "#FFEBEE"),
   ("nvlink", "#FFF3E0"), ("net", "#FFE0B2"), ("nic", "#FFE0B2")]

/-- Python colors.get(dev, 'white'): dictionary lookup with default. -/
def colors_get (dev : String) : String :=
  (colors.lookup dev).getD "white"

/-- One row of the HTML-like attribute table: the f-string on lines 38-39 of
xml_to_png.py, as a function of the key and the (already truncated) value. -/
def attr_row (k v : String) : String :=
  "<TR><TD ALIGN=\"LEFT\"><FONT POINT-SIZE=\"10\">" ++ k ++
    "</FONT></TD><TD ALIGN=\"LEFT\"><FONT POINT-SIZE=\"10\">" ++ v ++
    "</FONT></TD></TR>"

/-- format_attributes of xml_to_png.py: empty attribute dict gives the empty
string; otherwise one table row per attribute, where a value longer than 30
characters is replaced by its first 27 characters followed by "..."
(Python: str(v)[:27] + "...").  Python's v[:27] takes the first 27
characters, embedded here as String.mk (v.data.take 27). -/
def format_attributes (attrs : List (String × String)) : String :=
  if attrs.isEmpty then ""
  else
    String.join (attrs.map (fun kv =>
      attr_row kv.1
        (if 30 < kv.2.length then String.mk (kv.2.data.take 27) ++ "..." else kv.2)))

/-- The attr_map dictionary of build_topology (device type → identifying
attribute key). -/
def attr_map : List (String × String) :=
  [("cpu", "numaid"), ("pci", "busid"), ("gpu", "dev"), ("nvlink", "target"),
   ("net", "name"), ("nic", "name"), ("graph", "id")]

/-- Python res.replace(':', '_') for the single-character pattern:
replace every colon character by an underscore. -/
def replaceColon (s : String) : String :=
  String.mk (s.data.map (fun c => if c = ':' then '_' else c))

/-- The value of the variable res in build_topology after lines 57-63, with
Python falsy values (None from a missing key, and the empty string) collapsed
to none, since every later use of res is guarded by its truthiness:
none when the type has no attr_map entry, when the identifying attribute is
absent, or when its value is the empty string; otherwise the attribute value
with every colon replaced by an underscore. -/
def identifier (dev : String) (attrib : List (String × String)) : Option String :=
  match attr_map.lookup dev with
  | none => none
  | some attr_name =>
    match attrib.lookup attr_name with
    | none => none
    | some res => if res = "" then none else some (replaceColon res)

/-- Line 66 of xml_to_png.py: node_name is dev underscore res when res is
truthy, and just dev otherwise. -/
def node_name_of (dev : String) (attrib : List (String × String)) : String :=
  match identifier dev attrib with
  | some res => dev ++ "_" ++ res
  | none => dev

/-- Python str.upper() on the ASCII tags used here: upper-case every
character. -/
def pyUpper (s : String) : String :=
  String.mk (s.data.map Char.toUpper)

/-- Python str.capitalize(): first character upper-cased, all remaining
characters lower-cased. -/
def pyCapitalize (s : String) : String :=
  match s.data with
  | [] => ""
  | c :: cs => String.mk (Char.toUpper c :: cs.map Char.toLower)

/-- Lines 69-71 of xml_to_png.py: the display title is dev.upper() for gpu
and cpu and dev.capitalize() otherwise, suffixed with a space and the
identifier when the identifier is truthy. -/
def node_title (dev : String) (attrib : List (String × String)) : String :=
  let base := if dev = "gpu" ∨ dev = "cpu" then pyUpper dev else pyCapitalize dev
  match identifier dev attrib with
  | some res => base ++ " " ++ res
  | none => base

/-- Lines 74-81 of xml_to_png.py: the HTML-like node label.  When the
formatted attribute rows are nonempty (truthy), the triple-quoted table
f-string with its literal newlines and indentation; otherwise the plain bold
title. -/
def node_label (dev : String) (attrib : List (String × String)) : String :=
  let title := node_title dev attrib
  let attrs_html := format_attributes attrib
  let bg := colors_get dev
  if attrs_html = "" then "<<B>" ++ title ++ "</B>>"
  else
    "<<TABLE BORDER=\"0\" CELLBORDER=\"1\" CELLSPACING=\"0\" CELLPADDING=\"4\">\n            <TR><TD BGCOLOR=\"" ++
      bg ++ "\"><B>" ++ title ++ "</B></TD></TR>\n            " ++ attrs_html ++
      "\n            </TABLE>>"

/-- A drawing primitive issued to the graphviz Digraph: graph.node with its
name, label and keyword arguments, or graph.edge with its endpoints and
keyword arguments, in the order they appear in the source. -/
inductive Event : Type where
  | node (name label shape style fillcolor penwidth : String)
  | edge (tail head penwidth color arrowsize : String)
deriving DecidableEq

def isNodeEvent : Event → Bool
  | .node _ _ _ _ _ _ => true
  | .edge _ _ _ _ _ => false

def isEdgeEvent : Event → Bool
  | .node _ _ _ _ _ _ => false
  | .edge _ _ _ _ _ => true

/-- The name of a node-creation event, if the event is one. -/
def event_node_name : Event → Option String
  | .node n _ _ _ _ _ => some n
  | .edge _ _ _ _ _ => none

mutual
/-- build_topology of xml_to_png.py as the sequence of drawing primitives it
issues, in order: first graph.node for this element, then graph.edge from the
parent when parent_node is not None, then the primitives of the children in
order.  The rank argument is threaded exactly as in the source (passed to
children incremented by one) and never read. -/
def build_topology : XmlElem → Option String → Nat → List Event
  | .mk tag attrib _children, parent_node, rank =>
    let node_name := node_name_of tag attrib
    Event.node node_name (node_label tag attrib) "box" "rounded,filled"
        (colors_get tag) "1.5" ::
      ((match parent_node with
        | some p => [Event.edge p node_name "1.5" "#666666" "0.7"]
        | none => []) ++
        build_topology_list _children node_name rank)
/-- The for-loop at the end of build_topology: recurse into each child with
this element's node name as parent and rank + 1. -/
def build_topology_list : List XmlElem → String → Nat → List Event
  | [], _, _ => []
  | c :: cs, node_name, rank =>
    build_topology c (some node_name) (rank + 1) ++
      build_topology_list cs node_name rank
end

mutual
/-- Number of element nodes in a document tree. -/
def countElems : XmlElem → Nat
  | .mk _ _ ch => 1 + countElemsList ch
def countElemsList : List XmlElem → Nat
  | [] => 0
  | e :: es => countElems e + countElemsList es
end

/-! ## Renderer command line: the __main__ block of xml_to_png.py

The script calls getopt.getopt(sys.argv[1:], "hi:o:").  Python's getopt for a
short-option string is modelled below: arguments are scanned left to right;
scanning stops at the first argument that does not start with a dash (or is
exactly a dash); a bare double dash is skipped and stops scanning; within a
dash-prefixed argument, each option character is looked up in the option
string, an unknown character raises GetoptError (modelled as none), an
option requiring an argument takes the rest of its token or, when the token
is exhausted, the following command-line argument (GetoptError when there is
none). -/

/-- Option characters of the option string "hi:o:": whether the character is
a known option and whether it requires an argument. -/
def short_has_arg : Char → Option Bool
  | 'h' => some false
  | 'i' => some true
  | 'o' => some true
  | _ => none

/-- Python getopt.do_shorts for one dash-prefixed token (its characters after
the dash), given the following command-line argument if any.  Returns the
parsed (option, value) pairs of this token and whether the following argument
was consumed as an option value; none models GetoptError. -/
def do_shorts : List Char → Option String → Option (List (String × String) × Bool)
  | [], _ => some ([], false)
  | c :: cs, next =>
    match short_has_arg c with
    | none => none
    | some true =>
      if cs.isEmpty then
        match next with
        | none => none
        | some a => some ([(String.mk ['-', c], a)], true)
      else some ([(String.mk ['-', c], String.mk cs)], false)
    | some false =>
      match do_shorts cs next with
      | none => none
      | some (opts, b) => some ((String.mk ['-', c], "") :: opts, b)

/-- Python getopt.getopt(args, "hi:o:"): the list of parsed (option, value)
pairs and the remaining positional arguments, or none on GetoptError. -/
def getopt_loop : List String → Option (List (String × String) × List String)
  | [] => some ([], [])
  | a :: rest =>
    if a.data.head? = some '-' ∧ a ≠ "-" then
      if a = "--" then some ([], rest)
      else
        match do_shorts a.data.tail rest.head? with
        | none => none
        | some (opts, consumed) =>
          if consumed then
            match rest with
            | [] => none
            | _ :: rest2 =>
              match getopt_loop rest2 with
              | none => none
              | some (opts2, args) => some (opts ++ opts2, args)
          else
            match getopt_loop rest with
            | none => none
            | some (opts2, args) => some (opts ++ opts2, args)
    else some ([], a :: rest)

/-- Observable outcome of the renderer's __main__ block: usage text printed
followed by sys.exit with the given code, or main(input_file, output_file)
invoked (the only path that parses and renders). -/
inductive CliOutcome : Type where
  | usageExit (code : Nat)
  | run (input output : String)
deriving DecidableEq

/-- The for-loop over the parsed options and the final check of the
__main__ block: a -h option prints usage and calls sys.exit() (exit code 0)
immediately; -i and -o record their values; afterwards main runs only when
both recorded values are truthy (present and nonempty), else usage and
exit 1. -/
def process_opts : List (String × String) → Option String → Option String → CliOutcome
  | [], input, output =>
    match input, output with
    | some i, some o =>
      if i = "" ∨ o = "" then CliOutcome.usageExit 1 else CliOutcome.run i o
    | _, _ => CliOutcome.usageExit 1
  | (opt, arg) :: rest, input, output =>
    if opt = "-h" then CliOutcome.usageExit 0
    else if opt = "-i" then process_opts rest (some arg) output
    else if opt = "-o" then process_opts rest input (some arg)
    else process_opts rest input output

/-- The whole __main__ block of xml_to_png.py on a given argv (argv includes
the program name, as sys.argv does): a usage-and-exit-1 when argv does not
have exactly 5 entries, usage-and-exit-1 on GetoptError, otherwise the
option-processing loop. -/
def xml_to_png_cli (argv : List String) : CliOutcome :=
  if argv.length ≠ 5 then CliOutcome.usageExit 1
  else
    match getopt_loop argv.tail with
    | none => CliOutcome.usageExit 1
    | some (opts, _args) => process_opts opts none none

/-! ## Dump trigger: the main function of dump_topo.py -/

/-- The environment main of dump_topo.py reads: the RANK, LOCAL_RANK and
WORLD_SIZE variables, whether torch.cuda.is_available(), and
torch.cuda.device_count(). -/
structure DumpEnv : Type where
  rank : Nat
  localRank : Nat
  worldSize : Nat
  cudaAvailable : Bool
  deviceCount : Nat
deriving DecidableEq

/-- Observable outcome of main in dump_topo.py for one process: the exit
code when sys.exit was called (none when main returns normally), the
messages this process printed, in order, and whether this process set the
NCCL_TOPO_DUMP_FILE environment variable. -/
structure DumpResult : Type where
  exitCode : Option Nat
  printed : List String
  dumpFileSet : Bool
deriving DecidableEq

/-- The message printed on line 25 of dump_topo.py. -/
def cuda_unavailable_msg : String :=
  "CUDA is not available. Run this on a GPU machine."

/-- The f-string printed on line 32 of dump_topo.py. -/
def world_size_error_msg (ws ndev : Nat) : String :=
  "Error: world size (" ++ toString ws ++ ") is greater than number of GPUs (" ++
    toString ndev ++ ")."

/-- The f-string printed on line 43 of dump_topo.py. -/
def topo_written_msg (outFile : String) : String :=
  "NCCL topology written to: " ++ outFile

/-- A concrete well-formed document with two distinct gpu elements at
different tree positions carrying the same identifying attribute value:
a root with a gpu child and a cpu child whose own child is another gpu with
the same dev attribute. -/
def collision_doc : XmlElem :=
  .mk "system" []
    [.mk "gpu" [("dev", "0")] [],
     .mk "cpu" [("numaid", "1")] [.mk "gpu" [("dev", "0")] []]]

/-- Lines 16-43 of dump_topo.py: rank 0 sets the dump-file variable; then
every process exits 1 with a message when CUDA is unavailable; then every
process exits 1 when WORLD_SIZE exceeds the device count, but only rank 0
prints the error; otherwise the process group work happens (delegated to
torch.distributed) and rank 0 prints the confirmation. -/
def dump_topo_main (env : DumpEnv) (outFile : String) : DumpResult :=
  let dumpSet := env.rank == 0
  if env.cudaAvailable = false then
    ⟨some 1, [cuda_unavailable_msg], dumpSet⟩
  else if env.deviceCount < env.worldSize then
    ⟨some 1,
      if env.rank = 0 then [world_size_error_msg env.worldSize env.deviceCount] else [],
      dumpSet⟩
  else
    ⟨none, if env.rank = 0 then [topo_written_msg outFile] else [], dumpSet⟩

/-! ## Shared lemmas about the tree walk -/

mutual
theorem build_topology_node_count (e : XmlElem) (p : Option String) (r : Nat) :
    (build_topology e p r).countP isNodeEvent = countElems e := by
  cases e with
  | mk t a ch =>
    cases p <;>
      simp [build_topology, countElems, List.countP_cons, List.countP_append, isNodeEvent,
        build_topology_list_node_count ch (node_name_of t a) r] <;> omega
theorem build_topology_list_node_count (cs : List XmlElem) (nn : String) (r : Nat) :
    (build_topology_list cs nn r).countP isNodeEvent = countElemsList cs := by
  cases cs with
  | nil => simp [build_topology_list, countElemsList]
  | cons c cs =>
    simp [build_topology_list, countElemsList, List.countP_append,
      build_topology_node_count c (some nn) (r + 1),
      build_topology_list_node_count cs nn r]
end

mutual
theorem build_topology_edge_count_some (e : XmlElem) (q : String) (r : Nat) :
    (build_topology e (some q) r).countP isEdgeEvent = countElems e := by
  cases e with
  | mk t a ch =>
    simp [build_topology, countElems, List.countP_cons, List.countP_append, isEdgeEvent,
      build_topology_list_edge_count ch (node_name_of t a) r]
    omega
theorem build_topology_list_edge_count (cs : List XmlElem) (nn : String) (r : Nat) :
    (build_topology_list cs nn r).countP isEdgeEvent = countElemsList cs := by
  cases cs with
  | nil => simp [build_topology_list, countElemsList]
  | cons c cs =>
    simp [build_topology_list, countElemsList, List.countP_append,
      build_topology_edge_count_some c nn (r + 1),
      build_topology_list_edge_count cs nn r]
end

theorem build_topology_edge_count_root (e : XmlElem) (r : Nat) :
    (build_topology e none r).countP isEdgeEvent = countElems e - 1 := by
  cases e with
  | mk t a ch =>
    simp [build_topology, countElems, List.countP_cons, isEdgeEvent,
      build_topology_list_edge_count ch (node_name_of t a) r]

mutual
theorem build_topology_rank_eq (e : XmlElem) (p : Option String) (r1 r2 : Nat) :
    build_topology e p r1 = build_topology e p r2 := by
  cases e with
  | mk t a ch =>
    simp [build_topology, build_topology_list_rank_eq ch (node_name_of t a) r1 r2]
theorem build_topology_list_rank_eq (cs : List XmlElem) (nn : String) (r1 r2 : Nat) :
    build_topology_list cs nn r1 = build_topology_list cs nn r2 := by
  cases cs with
  | nil => simp [build_topology_list]
  | cons c cs =>
    simp [build_topology_list, build_topology_rank_eq c (some nn) (r1 + 1) (r2 + 1),
      build_topology_list_rank_eq cs nn r1 r2]
end

/-! ## Claims -/

/-- C1: for every (inherently tree-shaped) topology document, the renderer's
tree walk started at the root (no parent, rank 0) issues exactly one
drawing-node creation per document element and exactly one drawing-edge
creation per element that has a parent, that is, countElems doc node
creations and countElems doc - 1 edge creations. -/
theorem renderer_node_and_edge_counts (doc : XmlElem) :
    (build_topology doc none 0).countP isNodeEvent = countElems doc ∧
    (build_topology doc none 0).countP isEdgeEvent = countElems doc - 1 :=
  ⟨build_topology_node_count doc none 0, build_topology_edge_count_root doc 0⟩

/-- C10: the drawing primitives produced by the tree walk are independent of
the initial value of the rank parameter: it is threaded through the
recursion but never read. -/
theorem build_topology_rank_independent (e : XmlElem) (p : Option String) (r1 r2 : Nat) :
    build_topology e p r1 = build_topology e p r2 :=
  build_topology_rank_eq e p r1 r2

/-- C2: in the attribute table of a node label, a value longer than 30
characters is rendered as exactly its first 27 characters followed by
"..." (and those first 27 characters are indeed 27 characters long), while a
value of at most 30 characters is rendered unmodified. -/
theorem attribute_value_truncation (k v : String) :
    (30 < v.length →
      format_attributes [(k, v)] = attr_row k (String.mk (v.data.take 27) ++ "...") ∧
      (String.mk (v.data.take 27)).length = 27) ∧
    (v.length ≤ 30 → format_attributes [(k, v)] = attr_row k v) := by
  constructor
  · intro h
    constructor
    · show String.join
        [attr_row k (if 30 < v.length then String.mk (v.data.take 27) ++ "..." else v)] = _
      rw [if_pos h]
      show "" ++ _ = _
      exact String.empty_append _
    · cases v with
      | mk data =>
        simp only [String.length] at h ⊢
        simp [List.length_take]
        omega
  · intro h
    show String.join
      [attr_row k (if 30 < v.length then String.mk (v.data.take 27) ++ "..." else v)] = _
    rw [if_neg (by omega)]
    show "" ++ _ = _
    exact String.empty_append _

/-- C2 witness: a 31-character value is truncated to its first 27 characters
plus the ellipsis; a 5-character value is untouched. -/
theorem attribute_value_truncation_witness :
    (30 < ("0123456789012345678901234567890" : String).length ∧
      format_attributes [("key", "0123456789012345678901234567890")] =
        attr_row "key"
          (String.mk (("0123456789012345678901234567890" : String).data.take 27) ++ "...")) ∧
    (("short" : String).length ≤ 30 ∧
      format_attributes [("key", "short")] = attr_row "key" "short") :=
  ⟨⟨by decide, ((attribute_value_truncation "key" _).1 (by decide)).1⟩,
    ⟨by decide, (attribute_value_truncation "key" _).2 (by decide)⟩⟩

/-- C5 counterexample: a pci element whose identifying attribute busid is
present with the empty string as value.  The claim predicts the node name
to be the tag, an underscore and the (sanitized) identifier, but the code
tests the identifier for Python truthiness, so the empty value yields the
bare tag instead. -/
theorem node_name_empty_identifier_counterexample :
    attr_map.lookup "pci" = some "busid" ∧
    ([("busid", "")] : List (String × String)).lookup "busid" = some "" ∧
    node_name_of "pci" [("busid", "")] = "pci" ∧
    node_name_of "pci" [("busid", "")] ≠ "pci" ++ "_" ++ replaceColon "" := by
  decide

/-- C5 (amended): the drawing-node name is the tag, an underscore and the
sanitized identifier (every colon replaced by an underscore) when the type
has an attr_map entry and the identifying attribute is present with a
nonempty value; it is just the tag when the type has no attr_map entry, when
the identifying attribute is absent, or when its value is empty; and the
pci example of the spec holds. -/
theorem node_name_scheme (dev : String) (attrib : List (String × String)) :
    (attr_map.lookup dev = none → node_name_of dev attrib = dev) ∧
    (∀ a, attr_map.lookup dev = some a → attrib.lookup a = none →
      node_name_of dev attrib = dev) ∧
    (∀ a, attr_map.lookup dev = some a → attrib.lookup a = some "" →
      node_name_of dev attrib = dev) ∧
    (∀ a v, attr_map.lookup dev = some a → attrib.lookup a = some v → v ≠ "" →
      node_name_of dev attrib = dev ++ "_" ++ replaceColon v) ∧
    node_name_of "pci" [("busid", "0000:00:1f.0")] = "pci_0000_00_1f.0" := by
  refine ⟨?_, ?_, ?_, ?_, by decide⟩
  · intro h
    simp [node_name_of, identifier, h]
  · intro a h1 h2
    simp [node_name_of, identifier, h1, h2]
  · intro a h1 h2
    simp [node_name_of, identifier, h1, h2]
  · intro a v h1 h2 hv
    simp [node_name_of, identifier, h1, h2, hv]

/-- C5 witness: the four shapes of the amended claim at concrete inputs:
a type without a table entry, a missing identifying attribute, an empty
identifying attribute, and a present nonempty one. -/
theorem node_name_scheme_witness :
    node_name_of "channel" [("id", "0")] = "channel" ∧
    node_name_of "gpu" [] = "gpu" ∧
    node_name_of "cpu" [("numaid", "")] = "cpu" ∧
    node_name_of "net" [("name", "mlx5_0")] = "net_mlx5_0" :=
  ⟨(node_name_scheme "channel" _).1 (by decide),
    (node_name_scheme "gpu" _).2.1 "dev" (by decide) (by decide),
    (node_name_scheme "cpu" _).2.2.1 "numaid" (by decide) (by decide),
    (node_name_scheme "net" _).2.2.2.1 "name" "mlx5_0" (by decide) (by decide) (by decide)⟩

/-- C6: the display title is the fully upper-cased tag for gpu and cpu and
the capitalized tag otherwise, suffixed with a space and the sanitized
identifier when the identifier is present; in particular gpu with dev 0 is
titled GPU 0. -/
theorem node_title_scheme (dev : String) (attrib : List (String × String)) :
    node_title dev attrib =
      (if dev = "gpu" ∨ dev = "cpu" then pyUpper dev else pyCapitalize dev) ++
        (match identifier dev attrib with
          | some res => " " ++ res
          | none => "") ∧
    node_title "gpu" [("dev", "0")] = "GPU 0" ∧
    node_title "cpu" [("numaid", "3")] = "CPU 3" ∧
    node_title "nvlink" [("target", "gpu:1")] = "Nvlink gpu_1" ∧
    node_title "channel" [("id", "2")] = "Channel" := by
  refine ⟨?_, by decide, by decide, by decide, by decide⟩
  cases h : identifier dev attrib with
  | some res => simp [node_title, h, String.append_assoc]
  | none => simp [node_title, h, String.append_empty]

/-- C8: the naming scheme is not injective across tree positions.  In
collision_doc two distinct gpu elements at different positions (a child of
the root and a grandchild through the cpu element) both produce a
drawing-node creation named gpu_0, and the walk keeps both creations
verbatim: no renaming or deduplication happens. -/
theorem node_name_collision :
    (build_topology collision_doc none 0).filterMap event_node_name =
      ["system", "gpu_0", "cpu_1", "gpu_0"] ∧
    ((build_topology collision_doc none 0).filterMap event_node_name).count "gpu_0" = 2 := by
  decide

/-! ## Shared lemmas about the option-processing loop -/

theorem process_opts_help : ∀ (opts : List (String × String)) (input output : Option String),
    ("-h", "") ∈ opts → process_opts opts input output = CliOutcome.usageExit 0 := by
  intro opts
  induction opts with
  | nil =>
    intro input output h
    cases h
  | cons p rest ih =>
    intro input output h
    obtain ⟨opt, arg⟩ := p
    by_cases hh : opt = "-h"
    · simp [process_opts, hh]
    · have hmem : ("-h", "") ∈ rest := by
        rcases List.mem_cons.mp h with he | hm
        · exact absurd (congrArg Prod.fst he).symm hh
        · exact hm
      simp only [process_opts, if_neg hh]
      by_cases hi : opt = "-i"
      · rw [if_pos hi]
        exact ih _ _ hmem
      · rw [if_neg hi]
        by_cases ho : opt = "-o"
        · rw [if_pos ho]
          exact ih _ _ hmem
        · rw [if_neg ho]
          exact ih _ _ hmem

theorem process_opts_no_output : ∀ (opts : List (String × String)) (input : Option String),
    (∀ x ∈ opts, x.1 ≠ "-o" ∧ x.1 ≠ "-h") →
    process_opts opts input none = CliOutcome.usageExit 1 := by
  intro opts
  induction opts with
  | nil =>
    intro input _h
    cases input <;> rfl
  | cons p rest ih =>
    intro input h
    obtain ⟨opt, arg⟩ := p
    have hp := h (opt, arg) (List.mem_cons_self _ _)
    have hrest : ∀ x ∈ rest, x.1 ≠ "-o" ∧ x.1 ≠ "-h" :=
      fun x hx => h x (List.mem_cons_of_mem _ hx)
    simp only [process_opts, if_neg hp.2]
    by_cases hi : opt = "-i"
    · rw [if_pos hi]
      exact ih _ hrest
    · rw [if_neg hi, if_neg hp.1]
      exact ih _ hrest

/-- C4 counterexample: invoking the renderer with just the single argument
-h gives a sys.argv of length 2; the length-5 guard runs first, so usage is
printed and the exit code is 1, not 0 as the claim states. -/
theorem help_alone_exits_one :
    xml_to_png_cli ["xml_to_png.py", "-h"] = CliOutcome.usageExit 1 ∧
    xml_to_png_cli ["xml_to_png.py", "-h"] ≠ CliOutcome.usageExit 0 := by
  decide

/-- C4 (amended): usage with exit code 0 happens exactly on the path where
argv has exactly 5 entries and -h is among the successfully parsed options;
with any other argv length, -h included or not, usage is printed and the
exit code is 1. -/
theorem help_flag_usage_exit (argv : List String) :
    (∀ opts args, argv.length = 5 → getopt_loop argv.tail = some (opts, args) →
      ("-h", "") ∈ opts → xml_to_png_cli argv = CliOutcome.usageExit 0) ∧
    (argv.length ≠ 5 → xml_to_png_cli argv = CliOutcome.usageExit 1) := by
  constructor
  · intro opts args h5 hg hh
    unfold xml_to_png_cli
    rw [if_neg (by omega), hg]
    exact process_opts_help opts none none hh
  · intro h5
    unfold xml_to_png_cli
    rw [if_pos h5]

/-- C4 witness: with five argv entries and -h parsed as an option the exit
code is 0; with the single argument -h the exit code is 1. -/
theorem help_flag_usage_exit_witness :
    xml_to_png_cli ["xml_to_png.py", "-h", "a", "b", "c"] = CliOutcome.usageExit 0 ∧
    xml_to_png_cli ["xml_to_png.py", "-h"] = CliOutcome.usageExit 1 :=
  ⟨(help_flag_usage_exit _).1 [("-h", "")] ["a", "b", "c"] (by decide) (by decide) (by decide),
    (help_flag_usage_exit _).2 (by decide)⟩

/-- C7 counterexample: a command line that contains the input flag and no
output flag but also contains -h: the -h branch fires, so usage is printed
with exit code 0, not 1 as the claim states for every such invocation. -/
theorem input_no_output_help_exits_zero :
    xml_to_png_cli ["xml_to_png.py", "-i", "a", "-h", "x"] = CliOutcome.usageExit 0 ∧
    xml_to_png_cli ["xml_to_png.py", "-i", "a", "-h", "x"] ≠ CliOutcome.usageExit 1 := by
  decide

/-- C7 (amended): whenever the parsed options contain the input flag but
neither the output flag nor the help flag (in particular for the invocation
with only -i foo.xml, which fails the length guard outright), the renderer
prints usage and exits with code 1, and never reaches main, the only path
that parses or renders. -/
theorem input_without_output_usage_exit (argv : List String)
    (h : ∀ opts args, getopt_loop argv.tail = some (opts, args) →
      (∃ a, ("-i", a) ∈ opts) ∧ ∀ x ∈ opts, x.1 ≠ "-o" ∧ x.1 ≠ "-h") :
    xml_to_png_cli argv = CliOutcome.usageExit 1 ∧
    ∀ i o, xml_to_png_cli argv ≠ CliOutcome.run i o := by
  have hmain : xml_to_png_cli argv = CliOutcome.usageExit 1 := by
    unfold xml_to_png_cli
    by_cases h5 : argv.length ≠ 5
    · rw [if_pos h5]
    · rw [if_neg h5]
      cases hg : getopt_loop argv.tail with
      | none => rfl
      | some pr =>
        obtain ⟨opts, args⟩ := pr
        exact process_opts_no_output opts none ((h opts args hg).2)
  exact ⟨hmain, fun i o => by simp [hmain]⟩

/-- C7 witness: the invocation with only -i foo.xml from the claim. -/
theorem input_without_output_usage_exit_witness :
    xml_to_png_cli ["xml_to_png.py", "-i", "foo.xml"] = CliOutcome.usageExit 1 := by
  refine (input_without_output_usage_exit ["xml_to_png.py", "-i", "foo.xml"] ?_).1
  intro opts args hg
  have he : getopt_loop ["-i", "foo.xml"] = some ([("-i", "foo.xml")], []) := by decide
  simp only [List.tail_cons] at hg
  rw [he] at hg
  injection hg with hg2
  injection hg2 with ho ha
  subst ho
  exact ⟨⟨"foo.xml", by decide⟩, by decide⟩

/-- C3: with CUDA available and a WORLD_SIZE strictly greater than the
device count, every process exits with code 1; the error message is printed
by the rank 0 process only, every other rank prints nothing. -/
theorem world_size_mismatch_exit (env : DumpEnv) (outFile : String)
    (hcuda : env.cudaAvailable = true) (hws : env.deviceCount < env.worldSize) :
    (dump_topo_main env outFile).exitCode = some 1 ∧
    (env.rank = 0 →
      (dump_topo_main env outFile).printed =
        [world_size_error_msg env.worldSize env.deviceCount]) ∧
    (env.rank ≠ 0 → (dump_topo_main env outFile).printed = []) := by
  refine ⟨?_, ?_, ?_⟩
  · simp [dump_topo_main, hcuda, hws]
  · intro h0
    simp [dump_topo_main, hcuda, hws, h0]
  · intro h0
    simp [dump_topo_main, hcuda, hws, h0]

/-- C3 witness: WORLD_SIZE 9 with 8 devices, at rank 0 and at rank 3. -/
theorem world_size_mismatch_exit_witness :
    ((dump_topo_main ⟨0, 0, 9, true, 8⟩ "topo.xml").exitCode = some 1 ∧
      (dump_topo_main ⟨0, 0, 9, true, 8⟩ "topo.xml").printed = [world_size_error_msg 9 8]) ∧
    ((dump_topo_main ⟨3, 3, 9, true, 8⟩ "topo.xml").exitCode = some 1 ∧
      (dump_topo_main ⟨3, 3, 9, true, 8⟩ "topo.xml").printed = []) :=
  ⟨⟨(world_size_mismatch_exit ⟨0, 0, 9, true, 8⟩ "topo.xml" rfl (by decide)).1,
      (world_size_mismatch_exit ⟨0, 0, 9, true, 8⟩ "topo.xml" rfl (by decide)).2.1 rfl⟩,
    ⟨(world_size_mismatch_exit ⟨3, 3, 9, true, 8⟩ "topo.xml" rfl (by decide)).1,
      (world_size_mismatch_exit ⟨3, 3, 9, true, 8⟩ "topo.xml" rfl (by decide)).2.2 (by decide)⟩⟩

/-- C9: when CUDA is unavailable, every process, whatever its rank, prints
the diagnostic message and exits with code 1. -/
theorem cuda_unavailable_exit (env : DumpEnv) (outFile : String)
    (h : env.cudaAvailable = false) :
    (dump_topo_main env outFile).exitCode = some 1 ∧
    (dump_topo_main env outFile).printed = [cuda_unavailable_msg] := by
  simp [dump_topo_main, h]

/-- C9 witness: rank 0 and rank 5 both print the message and exit 1. -/
theorem cuda_unavailable_exit_witness :
    ((dump_topo_main ⟨0, 0, 8, false, 0⟩ "out.xml").exitCode = some 1 ∧
      (dump_topo_main ⟨0, 0, 8, false, 0⟩ "out.xml").printed = [cuda_unavailable_msg]) ∧
    ((dump_topo_main ⟨5, 5, 8, false, 0⟩ "out.xml").exitCode = some 1 ∧
      (dump_topo_main ⟨5, 5, 8, false, 0⟩ "out.xml").printed = [cuda_unavailable_msg]) :=
  ⟨cuda_unavailable_exit _ _ rfl, cuda_unavailable_exit _ _ rfl⟩

end VeScaleDebug
